import Mathlib

/-!
Shallow embedding of src/airflow/dags/train_from_minio.py.

The module defines a constant BUCKET read from the environment at import
time, and a DAG `train_from_minio` with two tasks:
  - fetch_latest_partition(ds=None): builds the key listing
    request string f"TRUCK-001/{ds}/", asks the S3 hook for the key list
    under that bucket and listing request, and defaults to [] when the
    hook returns None (the Python `or []`);
  - train_model(keys): prints the key count and keys[:5], returns None.
The DAG wires train_model(fetch_latest_partition()).
-/

namespace TrainFromMinio

/-- The process environment, as os.environ: a variable name maps to an
optional value. -/
def Env : Type := String → Option String

/-- os.getenv(name, dflt): the value of the variable when set, else the
default. -/
def getenv (env : Env) (name dflt : String) : String :=
  (env name).getD dflt

/-- The module level state produced by importing the Python file: the single
constant BUCKET. -/
structure Module where
  BUCKET : String

/-- Import time evaluation of `BUCKET = os.getenv("MINIO_BUCKET",
"truck-telemetry")`: the environment is read exactly once, at import. -/
def importModule (env : Env) : Module :=
  ⟨getenv env "MINIO_BUCKET" "truck-telemetry"⟩

/-- Python str() applied to the ds argument, which is either a date string or
None: str(None) is the four letter string "None". -/
def pyStrOfOptStr : Option String → String
  | none => "None"
  | some s => s

/-- The f-string f"TRUCK-001/{ds}/" from line 23 of the source. -/
def mkListingPfx (ds : Option String) : String :=
  "TRUCK-001/" ++ pyStrOfOptStr ds ++ "/"

/-- The arguments of one hook.list_keys call: the bucket_name keyword and
the key pfx keyword (the key layout filter string). -/
structure ListKeysCall where
  bucket_name : String
  pfx : String
deriving DecidableEq

/-- The external S3 hook, abstracted as its list_keys method: given
bucket_name and the listing filter string, it returns either None or a list
of keys. -/
def Hook : Type := String → String → Option (List String)

/-- Python `x or y` at type list: None and the empty list are falsy, so the
default is used for both; any non-empty list is returned as is. -/
def pyOrList (x : Option (List String)) (dflt : List String) : List String :=
  match x with
  | none => dflt
  | some l => if l.isEmpty then dflt else l

/-- The single list_keys call issued by fetch_latest_partition: bucket_name
is the module constant BUCKET, the filter string is f"TRUCK-001/{ds}/". -/
def listKeysCall (m : Module) (ds : Option String) : ListKeysCall :=
  ⟨m.BUCKET, mkListingPfx ds⟩

/-- Instrumented run of fetch_latest_partition: returns both the list_keys
call it issues and the task result
`hook.list_keys(bucket_name=BUCKET, ...) or []`. -/
def fetch_run (m : Module) (hook : Hook) (ds : Option String) :
    ListKeysCall × List String :=
  let call := listKeysCall m ds
  (call, pyOrList (hook call.bucket_name call.pfx) [])

/-- The task fetch_latest_partition itself: the value it returns. The Python
parameter ds defaults to None; callers that omit it pass none here. -/
def fetch_latest_partition (m : Module) (hook : Hook) (ds : Option String) :
    List String :=
  (fetch_run m hook ds).2

/-- The observable behavior of one train_model(keys) run: the count and the
preview keys[:5] interpolated into the printed line, and the Python return
value, which is None because the body has no return statement. -/
structure TrainResult where
  printedCount : Nat
  printedPreview : List String
  returned : Option (List String)
deriving DecidableEq

/-- The task train_model: prints
f"Training on {len(keys)} objects: {keys[:5]}" and returns None. -/
def train_model (keys : List String) : TrainResult :=
  ⟨keys.length, keys.take 5, none⟩

/-- The static DAG registration arguments from lines 11 to 17 of the
source. -/
structure DagConfig where
  dag_id : String
  start_date : Nat × Nat × Nat
  schedule_interval : String
  catchup : Bool
  tags : List String
deriving DecidableEq

/-- The DAG(...) call: dag_id "train_from_minio", start_date
datetime(2025, 1, 1), schedule_interval "@daily", catchup False, tags
["ml", "minio"]. -/
def trainFromMinioDag : DagConfig :=
  ⟨"train_from_minio", (2025, 1, 1), "@daily", false, ["ml", "minio"]⟩

/-- The task wiring on line 31: train_model(fetch_latest_partition()), with
the scheduler injecting ds into the first task. -/
def pipeline (m : Module) (hook : Hook) (ds : Option String) : TrainResult :=
  train_model (fetch_latest_partition m hook ds)

/-- Operations an S3 compatible store supports; the source only ever issues
the listKeys form, but writes and deletes exist in the interface and are
modelled so that frame conditions are non-trivial. -/
inductive StorageOp where
  | listKeys (bucket_name pfx : String)
  | putObject (bucket_name key data : String)
  | deleteObject (bucket_name key : String)
deriving DecidableEq

/-- Object storage contents: bucket and key map to optional object data. -/
def Store : Type := String → String → Option String

/-- Effect of one storage operation on the store: listKeys reads only,
putObject writes, deleteObject removes. -/
def applyOp (s : Store) : StorageOp → Store
  | .listKeys _ _ => s
  | .putObject b k d => fun b' k' => if b' = b ∧ k' = k then some d else s b' k'
  | .deleteObject b k => fun b' k' => if b' = b ∧ k' = k then none else s b' k'

/-- Effect of a sequence of storage operations, applied left to right. -/
def execOps (s : Store) : List StorageOp → Store
  | [] => s
  | op :: ops => execOps (applyOp s op) ops

/-- The full trace of storage operations one pipeline run issues: exactly the
one list_keys call made by fetch_latest_partition; train_model touches no
storage. -/
def pipelineOps (m : Module) (ds : Option String) : List StorageOp :=
  [StorageOp.listKeys (listKeysCall m ds).bucket_name (listKeysCall m ds).pfx]

/-- A task run of fetch_latest_partition inside a live process: the module
was imported earlier under some environment, producing m; the ambient
environment at run time may have changed since, but the function body reads
only the module constant BUCKET and never consults os.environ, so the
ambient environment is ignored. -/
def fetchRunAt (m : Module) (_ambient : Env) (hook : Hook)
    (ds : Option String) : ListKeysCall × List String :=
  fetch_run m hook ds

/-! ### Theorems for the claims -/

/-- C1. For every list of key strings passed to train_model, including the
empty list, train_model is total (never fails) and the count it prints
equals the length of that list. -/
theorem train_model_count (keys : List String) :
    (train_model keys).printedCount = keys.length := rfl

/-- C2. For every run date ds supplied by the scheduler, the listing call
issued by fetch_latest_partition uses the bucket resolved from MINIO_BUCKET
and the filter string exactly "TRUCK-001/" ++ ds ++ "/". -/
theorem fetch_listing_call (env : Env) (hook : Hook) (ds : String) :
    (fetch_run (importModule env) hook (some ds)).1 =
      ⟨(importModule env).BUCKET, "TRUCK-001/" ++ ds ++ "/"⟩ := rfl

/-- C3. The bucket name equals "truck-telemetry" when MINIO_BUCKET is unset
in the environment, and equals the value of MINIO_BUCKET when it is set. -/
theorem bucket_resolution (env : Env) :
    (env "MINIO_BUCKET" = none →
      (importModule env).BUCKET = "truck-telemetry") ∧
    (∀ v, env "MINIO_BUCKET" = some v → (importModule env).BUCKET = v) := by
  constructor
  · intro h
    simp [importModule, getenv, h]
  · intro v h
    simp [importModule, getenv, h]

/-- Witness for C3 at two concrete environments: one with MINIO_BUCKET
unset, one with it set to "my-bucket". -/
theorem bucket_resolution_witness :
    (importModule (fun _ => none)).BUCKET = "truck-telemetry" ∧
    (importModule
      (fun n => if n = "MINIO_BUCKET" then some "my-bucket" else none)).BUCKET
      = "my-bucket" :=
  ⟨(bucket_resolution (fun _ => none)).1 rfl,
   (bucket_resolution
      (fun n => if n = "MINIO_BUCKET" then some "my-bucket" else none)).2
      "my-bucket" (by simp)⟩

/-- C4. When the hook returns None for the issued call,
fetch_latest_partition returns the empty list instead of propagating None or
raising. -/
theorem fetch_none_defaults_empty (m : Module) (hook : Hook)
    (ds : Option String)
    (h : hook (listKeysCall m ds).bucket_name (listKeysCall m ds).pfx
          = none) :
    fetch_latest_partition m hook ds = [] := by
  simp [fetch_latest_partition, fetch_run, pyOrList, h]

/-- Witness for C4: a hook that always returns None, at ds = none. -/
theorem fetch_none_defaults_empty_witness :
    fetch_latest_partition ⟨"truck-telemetry"⟩ (fun _ _ => none) none = [] :=
  fetch_none_defaults_empty ⟨"truck-telemetry"⟩ (fun _ _ => none) none rfl

/-- C5. For every non-empty list the hook returns for the issued call,
fetch_latest_partition returns exactly that list, unmodified and in
order. -/
theorem fetch_pass_through (m : Module) (hook : Hook) (ds : Option String)
    (l : List String)
    (hl : hook (listKeysCall m ds).bucket_name (listKeysCall m ds).pfx
          = some l)
    (hne : l ≠ []) :
    fetch_latest_partition m hook ds = l := by
  cases l with
  | nil => exact absurd rfl hne
  | cons a t => simp [fetch_latest_partition, fetch_run, pyOrList, hl]

/-- Witness for C5: a hook returning the one element list ["a"]. -/
theorem fetch_pass_through_witness :
    fetch_latest_partition ⟨"truck-telemetry"⟩ (fun _ _ => some ["a"]) none
      = ["a"] :=
  fetch_pass_through ⟨"truck-telemetry"⟩ (fun _ _ => some ["a"]) none ["a"]
    rfl (by decide)

/-- C6. The preview train_model prints is exactly the first
min(5, length) elements of the input list, in order. -/
theorem train_model_preview (keys : List String) :
    (train_model keys).printedPreview = keys.take 5 ∧
    (train_model keys).printedPreview = keys.take (min 5 keys.length) ∧
    (train_model keys).printedPreview.length = min 5 keys.length := by
  refine ⟨rfl, ?_, ?_⟩
  · show keys.take 5 = keys.take (min 5 keys.length)
    rw [List.take_eq_take]
    omega
  · show (keys.take 5).length = min 5 keys.length
    simp [List.length_take]

/-- C7. The DAG is registered with schedule_interval "@daily" and the tags
["ml", "minio"], and the wiring is exactly that the output of
fetch_latest_partition is the input of train_model. -/
theorem dag_registration :
    trainFromMinioDag.schedule_interval = "@daily" ∧
    trainFromMinioDag.tags = ["ml", "minio"] ∧
    ∀ (m : Module) (hook : Hook) (ds : Option String),
      pipeline m hook ds = train_model (fetch_latest_partition m hook ds) :=
  ⟨rfl, rfl, fun _ _ _ => rfl⟩

/-- C8. A pipeline run issues only the single listKeys operation and leaves
every bucket and key of the store unchanged, and train_model returns
None. -/
theorem pipeline_no_writes (m : Module) (ds : Option String) (s : Store) :
    execOps s (pipelineOps m ds) = s ∧
    (∀ op ∈ pipelineOps m ds,
      ∃ b p, op = StorageOp.listKeys b p) ∧
    (∀ keys : List String, (train_model keys).returned = none) := by
  refine ⟨rfl, ?_, fun _ => rfl⟩
  intro op hop
  simp [pipelineOps] at hop
  exact ⟨_, _, hop⟩

/-- C9. BUCKET is fixed at import time: two later runs of
fetch_latest_partition in the same process use the same bucket, whatever
the ambient environment has become and whatever the run dates are, and that
bucket is the one MINIO_BUCKET resolved to at import. -/
theorem bucket_fixed_at_import (env0 amb1 amb2 : Env) (hook : Hook)
    (ds1 ds2 : Option String) :
    (fetchRunAt (importModule env0) amb1 hook ds1).1.bucket_name =
      (fetchRunAt (importModule env0) amb2 hook ds2).1.bucket_name ∧
    (fetchRunAt (importModule env0) amb1 hook ds1).1.bucket_name =
      getenv env0 "MINIO_BUCKET" "truck-telemetry" :=
  ⟨rfl, rfl⟩

/-- C10. Called with ds left at its Python default None,
fetch_latest_partition still succeeds and issues the listing call with the
literal filter string "TRUCK-001/None/". -/
theorem fetch_default_ds (m : Module) (hook : Hook) :
    (fetch_run m hook none).1.pfx = "TRUCK-001/None/" ∧
    fetch_latest_partition m hook none =
      pyOrList (hook m.BUCKET "TRUCK-001/None/") [] :=
  ⟨rfl, rfl⟩

end TrainFromMinio
